import Mathlib

/-!
Verification of the hypersdk HyperCore client library: a shallow embedding of
the action-signing protocol (`src/hypercore/signing.rs`), the HTTP gateway's
batch submission paths (`src/hypercore/http.rs`) and the resilient streaming
subscription layer (`src/hypercore/ws.rs`).

Cryptographic primitives are kept abstract: an ECDSA signer is a function from
EIP-712 typed data to a signature, the Keccak256 digest and the MessagePack
serializers are function parameters.  The types module of the repository
(`hypercore/types/mod.rs`) is not available; the definitions taken from it are
modelled from the specification and are marked as such in their doc comments.
-/

namespace Hypersdk

/-- Modelled from the spec: the target chain enumeration (`Chain` in the
missing `hypercore` module root): mainnet or testnet. -/
inductive Chain where
  | mainnet
  | testnet
deriving DecidableEq

/-- Chain.is_mainnet from the missing module root: true exactly on mainnet. -/
def Chain.is_mainnet : Chain → Bool
  | .mainnet => true
  | .testnet => false

/-- Modelled from the spec: the Display rendering of a `Chain` used as the
chain name string of the multisig envelope. -/
def Chain.render : Chain → String
  | .mainnet => "Mainnet"
  | .testnet => "Testnet"

/-- Signature: fixed-size (r, s, v) triplet, from `hypercore/types` via the
spec data model. -/
structure Signature where
  r : Nat
  s : Nat
  v : Nat
deriving DecidableEq

/-- EIP-712 domain: chain id plus contract name and version
(spec section 6, structured-signing domains). -/
structure Eip712Domain where
  name : String
  version : String
  chainId : Nat
deriving DecidableEq

/-- EIP-712 message shapes from `hypercore/types/solidity.rs`: the Agent
wrapper, the SendMultiSig envelope and the transfer payloads. -/
inductive Msg where
  | agent (source : String) (connectionId : Nat)
  | sendMultiSig (hyperliquidChain : String) (multiSigActionHash : String) (nonce : Nat)
  | usdSendMsg (hyperliquidChain destination amount : String) (time : Nat)
  | spotSendMsg (hyperliquidChain destination token amount : String) (time : Nat)
  | sendAssetMsg (hyperliquidChain destination sourceDex destinationDex token amount fromSubAccount : String) (nonce : Nat)
deriving DecidableEq

/-- EIP-712 typed data: a domain together with a structured message. -/
structure TypedData where
  domain : Eip712Domain
  message : Msg
deriving DecidableEq

/-- An ECDSA key holder, abstracted as a function from the typed data it is
asked to sign (`sign_typed_data_sync` / `sign_dynamic_typed_data_sync`) to
the produced signature. -/
abbrev Signer : Type := TypedData → Signature

/-- Modelled from the spec: the fixed mainnet domain used for Mode A transfer
actions and the Mode B Agent wrapper (`CORE_MAINNET_EIP712_DOMAIN` in the
missing `hypercore/types` module).  Its exact field values are irrelevant to
the claims; only that it is one fixed constant. -/
def CORE_MAINNET_EIP712_DOMAIN : Eip712Domain :=
  { name := "Exchange", version := "1", chainId := 1337 }

/-- Modelled from the spec and the signing module's documentation: the fixed
mainnet multisig domain (chainId 0x66eee), used for the multisig envelope and
multisig-specific transfer signing regardless of the actual target chain. -/
def MULTISIG_MAINNET_EIP712_DOMAIN : Eip712Domain :=
  { name := "HyperliquidSignTransaction", version := "1", chainId := 0x66eee }

/-- Modelled from the spec: the Arbitrum testnet chain id constant
(`ARBITRUM_TESTNET_CHAIN_ID`, 0x66eee) from the missing module root. -/
def ARBITRUM_TESTNET_CHAIN_ID : Nat := 0x66eee

/-- Rust str::to_lowercase on an address string: every character mapped to
its lower-case form. -/
def toLowercase (s : String) : String := String.mk (s.data.map Char.toLower)

/-- Big-endian 8-byte encoding of a 64-bit value (spec section 6,
canonical hash input). -/
def be64 (n : Nat) : List Nat :=
  (List.range 8).map (fun i => n / 2 ^ (8 * (7 - i)) % 256)

/-- Byte rendering of a vault address for the canonical hash input; the
concrete 20-byte encoding is irrelevant to the claims. -/
def addrBytes (a : String) : List Nat := a.data.map Char.toNat

/-- Modelled from the spec (section 6): the canonical hash input
`canonical(payload) ++ be64(nonce) ++ (0x00 | 0x01++addr) ++
(0x00 | 0x01++be64(expiry))`. -/
def rmpBytes (payload : List Nat) (nonce : Nat) (vault : Option String)
    (expiry : Option Nat) : List Nat :=
  payload ++ be64 nonce ++
    (match vault with
     | none => [0]
     | some a => 1 :: addrBytes a) ++
    (match expiry with
     | none => [0]
     | some t => 1 :: be64 t)

/-- Modelled from the spec: `rmp_hash` from the missing `hypercore/types`
module; hashes the canonical byte string with a 256-bit cryptographic hash,
abstracted as the function parameter `hashFn`.  The MessagePack serialization
of the hashed value is the `payload` argument. -/
def rmp_hash (hashFn : List Nat → Nat) (payload : List Nat) (nonce : Nat)
    (vault : Option String) (expiry : Option Nat) : Nat :=
  hashFn (rmpBytes payload nonce vault expiry)

/-- Hex rendering of a 32-byte digest as the B256 Display does:
0x followed by 64 lower-case hex digits. -/
def hashHex (h : Nat) : String :=
  let ds := Nat.toDigits 16 (h % 2 ^ 256)
  "0x" ++ String.mk (List.replicate (64 - ds.length) '0' ++ ds)

/-- Client order id; modelled from the spec's data model (client-assigned
identifier, a plain value). -/
abbrev Cloid : Type := Nat

/-- Modelled from the spec: one order of a batch; only the client order id is
inspected by the embedded code, the remaining fields stand for the order's
economic content. -/
structure OrderRequest where
  asset : Nat
  isBuy : Bool
  price : Rat
  size : Rat
  cloid : Cloid
deriving DecidableEq

/-- Batch of orders (`BatchOrder`). -/
structure BatchOrder where
  orders : List OrderRequest
deriving DecidableEq

/-- Modelled from the spec: one cancel of a batch, by exchange order id. -/
structure CancelRequest where
  asset : Nat
  oid : Nat
deriving DecidableEq

/-- Batch of cancels (`BatchCancel`). -/
structure BatchCancel where
  cancels : List CancelRequest
deriving DecidableEq

/-- Modelled from the spec: one cancel of a batch, by client order id. -/
structure CancelCloidRequest where
  asset : Nat
  cloid : Cloid
deriving DecidableEq

/-- Batch of cancels by client order id (`BatchCancelCloid`). -/
structure BatchCancelCloid where
  cancels : List CancelCloidRequest
deriving DecidableEq

/-- Modelled from the spec: one modify of a batch. -/
structure ModifyRequest where
  oid : Nat
  order : OrderRequest
deriving DecidableEq

/-- Batch of modifies (`BatchModify`). -/
structure BatchModify where
  modifies : List ModifyRequest
deriving DecidableEq

/-- Scheduled cancellation (`ScheduleCancel`): optional trigger time in
milliseconds. -/
structure ScheduleCancel where
  time : Option Nat
deriving DecidableEq

/-- USD transfer action (`UsdSend`), fields as constructed in
`hypercore/http.rs` and the signing tests. -/
structure UsdSend where
  signature_chain_id : Nat
  hyperliquid_chain : Chain
  destination : String
  amount : Rat
  time : Nat
deriving DecidableEq

/-- Spot transfer action (`SpotSend`), fields as constructed in
`hypercore/http.rs`. -/
structure SpotSend where
  hyperliquid_chain : Chain
  signature_chain_id : Nat
  destination : String
  token : String
  amount : Rat
  time : Nat
deriving DecidableEq

/-- Generic asset transfer action (`SendAsset`), fields as constructed in
`hypercore/http.rs`. -/
structure SendAsset where
  hyperliquid_chain : Chain
  signature_chain_id : Nat
  destination : String
  source_dex : String
  destination_dex : String
  token : String
  from_sub_account : String
  amount : Rat
  nonce : Nat
deriving DecidableEq

mutual

/-- The closed action enumeration (spec data model; variants as dispatched in
`hypercore/signing.rs` and `hypercore/http.rs`). -/
inductive Action where
  | order (batch : BatchOrder)
  | cancel (batch : BatchCancel)
  | cancelByCloid (batch : BatchCancelCloid)
  | batchModify (batch : BatchModify)
  | scheduleCancel (sc : ScheduleCancel)
  | usdSend (send : UsdSend)
  | spotSend (send : SpotSend)
  | sendAsset (send : SendAsset)
  | evmUserModify (usingBigBlocks : Bool)
  | noop
  | multiSig (action : MultiSigAction)

/-- MultiSigAction: chain id for the wrapping signature, the ordered list of
collected signatures, and the payload. -/
inductive MultiSigAction where
  | mk (signature_chain_id : Nat) (signatures : List Signature)
      (payload : MultiSigPayload)

/-- MultiSigPayload: lowercased multisig account address, lowercased lead
(outer signer) address, and the boxed inner action. -/
inductive MultiSigPayload where
  | mk (multi_sig_user : String) (outer_signer : String) (action : Action)

end

/-- Chain id field of a `MultiSigAction`. -/
def MultiSigAction.signature_chain_id : MultiSigAction → Nat
  | .mk c _ _ => c

/-- Collected signatures of a `MultiSigAction`, in collection order. -/
def MultiSigAction.signatures : MultiSigAction → List Signature
  | .mk _ sigs _ => sigs

/-- Payload of a `MultiSigAction`. -/
def MultiSigAction.payload : MultiSigAction → MultiSigPayload
  | .mk _ _ p => p

/-- Multisig account address stored in a payload. -/
def MultiSigPayload.multi_sig_user : MultiSigPayload → String
  | .mk u _ _ => u

/-- Lead (outer signer) address stored in a payload. -/
def MultiSigPayload.outer_signer : MultiSigPayload → String
  | .mk _ o _ => o

/-- Inner action stored in a payload. -/
def MultiSigPayload.action : MultiSigPayload → Action
  | .mk _ _ a => a

/-- ActionRequest: signature, action, nonce, optional vault address, optional
expiry timestamp (milliseconds); the body posted to the exchange endpoint. -/
structure ActionRequest where
  signature : Signature
  action : Action
  nonce : Nat
  vault_address : Option String
  expires_after : Option Nat

/-- Modelled from the spec: `Action.hash` of the missing `hypercore/types`
module — the Mode-B canonical hash of an action with nonce, optional vault
address and optional expiry.  `canon` is the MessagePack serializer of the
action, `hashFn` the 256-bit hash. -/
def Action.hash (hashFn : List Nat → Nat) (canon : Action → List Nat)
    (a : Action) (nonce : Nat) (vault : Option String)
    (expiry : Option Nat) : Nat :=
  rmp_hash hashFn (canon a) nonce vault expiry

/-- sign_l1_action from `hypercore/signing.rs`: signs the Agent wrapper
(source tag "a" on mainnet and "b" on testnet, plus the connection id) under
the fixed mainnet domain. -/
def sign_l1_action (signer : Signer) (chain : Chain)
    (connection_id : Nat) : Signature :=
  signer
    { domain := CORE_MAINNET_EIP712_DOMAIN,
      message := Msg.agent (if chain.is_mainnet then "a" else "b") connection_id }

/-- sign_rmp from `hypercore/signing.rs`: Mode-B signing — canonical hash of
(action, nonce, vault, expiry), signature via `sign_l1_action`, request
carrying the action with nonce, vault and expiry. -/
def sign_rmp (hashFn : List Nat → Nat) (canon : Action → List Nat)
    (signer : Signer) (action : Action) (nonce : Nat)
    (maybe_vault_address : Option String) (expires_after : Option Nat)
    (chain : Chain) : ActionRequest :=
  let connection_id := Action.hash hashFn canon action nonce maybe_vault_address expires_after
  let signature := sign_l1_action signer chain connection_id
  { signature := signature, action := action, nonce := nonce,
    vault_address := maybe_vault_address, expires_after := expires_after }

/-- sign_eip712 from `hypercore/signing.rs`: Mode-A signing — the typed data
is signed directly and the request carries no vault address and no expiry. -/
def sign_eip712 (signer : Signer) (action : Action) (typed_data : TypedData)
    (nonce : Nat) : ActionRequest :=
  { signature := signer typed_data, action := action, nonce := nonce,
    vault_address := none, expires_after := none }

/-- Signable::sign for `UsdSend`: ignores the supplied vault address, expiry
and chain, and defers to `sign_eip712` on the action's typed data
(`typedData` abstracts the typed_data method of the missing types module). -/
def UsdSend.signReq (typedData : UsdSend → TypedData) (signer : Signer)
    (send : UsdSend) (nonce : Nat) (_maybe_vault_address : Option String)
    (_maybe_expires_after : Option Nat) (_chain : Chain) : ActionRequest :=
  sign_eip712 signer (Action.usdSend send) (typedData send) nonce

/-- Signable::sign for `SpotSend`: ignores the supplied vault address, expiry
and chain, and defers to `sign_eip712`. -/
def SpotSend.signReq (typedData : SpotSend → TypedData) (signer : Signer)
    (send : SpotSend) (nonce : Nat) (_maybe_vault_address : Option String)
    (_maybe_expires_after : Option Nat) (_chain : Chain) : ActionRequest :=
  sign_eip712 signer (Action.spotSend send) (typedData send) nonce

/-- Signable::sign for `SendAsset`: ignores the supplied vault address, expiry
and chain, and defers to `sign_eip712`. -/
def SendAsset.signReq (typedData : SendAsset → TypedData) (signer : Signer)
    (send : SendAsset) (nonce : Nat) (_maybe_vault_address : Option String)
    (_maybe_expires_after : Option Nat) (_chain : Chain) : ActionRequest :=
  sign_eip712 signer (Action.sendAsset send) (typedData send) nonce

/-- Connection id of the default Signable::multi_sig_single branch: the
Mode-B canonical hash over the triple (lowercased multisig account address,
lowercased lead address, action) with no vault and no expiry.  `canonTriple`
is the MessagePack serializer of that triple. -/
def multi_sig_connection_id (hashFn : List Nat → Nat)
    (canonTriple : String → String → Action → List Nat) (action : Action)
    (nonce : Nat) (multi_sig_user lead : String) : Nat :=
  rmp_hash hashFn
    (canonTriple (toLowercase multi_sig_user) (toLowercase lead) action)
    nonce none none

/-- Signable::multi_sig_single from `hypercore/signing.rs`: if the action has
a multisig-specific typed-data form (`typedDataMultisig`, from the missing
types module), that form is signed under the fixed mainnet multisig domain;
otherwise the lowercased-triple hash is signed via `sign_l1_action`. -/
def multi_sig_single (hashFn : List Nat → Nat)
    (canonTriple : String → String → Action → List Nat)
    (typedDataMultisig : String → String → Action → Option TypedData)
    (action : Action) (signer : Signer) (nonce : Nat)
    (multi_sig_user lead : String) (chain : Chain) : Signature :=
  match typedDataMultisig multi_sig_user lead action with
  | some td => signer { domain := MULTISIG_MAINNET_EIP712_DOMAIN, message := td.message }
  | none =>
      sign_l1_action signer chain
        (multi_sig_connection_id hashFn canonTriple action nonce multi_sig_user lead)

/-- The signature-collection loop of `multisig_collect_signatures`: starts
from the accumulated vector and pushes one signature per signer, walking the
signer list in order. -/
def collectLoop (f : Signer → Signature) (signers : List Signer)
    (signatures : List Signature) : List Signature :=
  match signers with
  | [] => signatures
  | s :: rest => collectLoop f rest (signatures ++ [f s])

/-- multisig_collect_signatures from `hypercore/signing.rs`: one
`multi_sig_single` call per signer in the given order, assembled into a
`MultiSigAction` with the Arbitrum testnet chain id and the lowercased
addresses in the payload. -/
def multisig_collect_signatures (hashFn : List Nat → Nat)
    (canonTriple : String → String → Action → List Nat)
    (typedDataMultisig : String → String → Action → Option TypedData)
    (lead multi_sig_user : String) (signers : List Signer)
    (inner_action : Action) (nonce : Nat) (chain : Chain) : MultiSigAction :=
  let signatures := collectLoop
    (fun s => multi_sig_single hashFn canonTriple typedDataMultisig
      inner_action s nonce multi_sig_user lead chain)
    signers []
  MultiSigAction.mk ARBITRUM_TESTNET_CHAIN_ID signatures
    (MultiSigPayload.mk (toLowercase multi_sig_user) (toLowercase lead) inner_action)

/-- multisig_lead_msg from `hypercore/signing.rs`: canonical hash of the
complete `MultiSigAction` with nonce, vault and expiry; envelope of chain
name, hash hex string and nonce; signed under the fixed mainnet multisig
domain; request wraps the multisig variant.  `canonMulti` is the MessagePack
serializer of a `MultiSigAction`. -/
def multisig_lead_msg (hashFn : List Nat → Nat)
    (canonMulti : MultiSigAction → List Nat) (signer : Signer)
    (action : MultiSigAction) (nonce : Nat)
    (maybe_vault_address : Option String) (expires_after : Option Nat)
    (chain : Chain) : ActionRequest :=
  let multisig_hash := rmp_hash hashFn (canonMulti action) nonce maybe_vault_address expires_after
  let envelope := Msg.sendMultiSig chain.render (hashHex multisig_hash) nonce
  let sig := signer { domain := MULTISIG_MAINNET_EIP712_DOMAIN, message := envelope }
  { signature := sig, action := Action.multiSig action, nonce := nonce,
    vault_address := maybe_vault_address, expires_after := expires_after }

/-- Per-item status of a batched trading endpoint; modelled from the spec
(one status per submitted item).  Its shape is never inspected by the
embedded gateway code. -/
inductive OrderResponseStatus where
  | resting (oid : Nat)
  | filled (oid : Nat)
  | errored (msg : String)
deriving DecidableEq

/-- Success payload of the exchange endpoint: the default acknowledgement or
the per-item statuses of a batched order endpoint. -/
inductive OkResponse where
  | default
  | order (statuses : List OrderResponseStatus)
deriving DecidableEq

/-- Tagged success/error envelope of the exchange endpoint. -/
inductive ApiResponse where
  | ok (resp : OkResponse)
  | err (msg : String)
deriving DecidableEq

/-- ActionError from `hypercore/http.rs`: an error for a set of order ids,
carrying every client-supplied identifier of the failed batch. -/
structure ActionError (T : Type) where
  ids : List T
  err : String
deriving DecidableEq

/-- Outcome of a batched gateway call: the per-item statuses, an
`ActionError`, or the panic arm taken on a response shape that matches
neither success nor error. -/
inductive BatchOutcome (T : Type) where
  | ok (statuses : List OrderResponseStatus)
  | err (e : ActionError T)
  | unexpectedResponse
deriving DecidableEq

/-- Client::place from `hypercore/http.rs`: collects the client order ids of
the batch before the transport call; a transport failure or a venue error
response is mapped to an `ActionError` carrying all of them.  `transport` is
the outcome of the signed POST to the exchange endpoint. -/
def Client.place (batch : BatchOrder)
    (transport : Except String ApiResponse) : BatchOutcome Cloid :=
  let cloids := batch.orders.map (fun req => req.cloid)
  match transport with
  | .error e => .err { ids := cloids, err := e }
  | .ok (ApiResponse.ok (OkResponse.order statuses)) => .ok statuses
  | .ok (ApiResponse.err e) => .err { ids := cloids, err := e }
  | .ok (ApiResponse.ok OkResponse.default) => .unexpectedResponse

/-- Client::cancel from `hypercore/http.rs`: collects the exchange order ids
of the batch before the transport call; a transport failure or a venue error
response is mapped to an `ActionError` carrying all of them. -/
def Client.cancel (batch : BatchCancel)
    (transport : Except String ApiResponse) : BatchOutcome Nat :=
  let oids := batch.cancels.map (fun req => req.oid)
  match transport with
  | .error e => .err { ids := oids, err := e }
  | .ok (ApiResponse.ok (OkResponse.order statuses)) => .ok statuses
  | .ok (ApiResponse.err e) => .err { ids := oids, err := e }
  | .ok (ApiResponse.ok OkResponse.default) => .unexpectedResponse

/-- The gateway-internal sign_rmp of `hypercore/http.rs`: unlike the signing
module's `sign_rmp` it takes no chain argument and always signs the Agent
wrapper with source tag "a" under the fixed mainnet domain. -/
def Client.sign_rmp (hashFn : List Nat → Nat) (canon : Action → List Nat)
    (signer : Signer) (action : Action) (nonce : Nat)
    (maybe_vault_address : Option String)
    (expires_after : Option Nat) : ActionRequest :=
  let connection_id := Action.hash hashFn canon action nonce maybe_vault_address expires_after
  let sig := signer { domain := CORE_MAINNET_EIP712_DOMAIN,
                      message := Msg.agent "a" connection_id }
  { signature := sig, action := action, nonce := nonce,
    vault_address := maybe_vault_address, expires_after := expires_after }

/-- Modelled from the spec: the tagged subscription descriptor (`Subscription`
in the missing types module) — all mid prices, trades for a symbol,
order-book updates for a symbol, user events for an address. -/
inductive Subscription where
  | allMids
  | trades (coin : String)
  | l2Book (coin : String)
  | userEvents (user : String)
deriving DecidableEq

/-- Client frames of the streaming endpoint (`Outgoing` in the missing types
module): subscribe, unsubscribe, ping. -/
inductive Outgoing where
  | subscribe (subscription : Subscription)
  | unsubscribe (subscription : Subscription)
  | ping
deriving DecidableEq

/-- Modelled from the spec: decoded server messages of the streaming endpoint
(`Incoming` in the missing types module).  Payload details are irrelevant to
the claims. -/
inductive Incoming where
  | allMids (dex : String) (mids : List (String × String))
  | trades (coin : String) (data : String)
  | l2Book (coin : String) (data : String)
  | user (data : String)
deriving DecidableEq

/-- Stream::poll_next from `hypercore/ws.rs` over the remaining raw frames of
a connection: frames whose payload fails to decode are skipped; the first
frame that decodes is yielded with the rest of the stream; none is returned
only when the underlying stream is exhausted. -/
def Stream.pollNext (decode : List Nat → Option Incoming) :
    List (List Nat) → Option (Incoming × List (List Nat))
  | [] => none
  | raw :: rest =>
      match decode raw with
      | some msg => some (msg, rest)
      | none => Stream.pollNext decode rest

/-- The desired-subscription set held by the connection task: a deduplicated
collection of descriptors, modelled as a list without duplicates (the
iteration order of the Rust HashSet is arbitrary; the list fixes one). -/
structure DesiredSet where
  elems : List Subscription
  nodup : elems.Nodup

/-- The empty desired set a fresh connection task starts from. -/
def DesiredSet.empty : DesiredSet := { elems := [], nodup := List.nodup_nil }

/-- HashSet::insert: adds the descriptor unless already present; returns the
updated set and whether the descriptor was new. -/
def DesiredSet.insert (subs : DesiredSet) (sub : Subscription) :
    DesiredSet × Bool :=
  if h : sub ∈ subs.elems then (subs, false)
  else ({ elems := sub :: subs.elems,
          nodup := List.nodup_cons.mpr ⟨h, subs.nodup⟩ }, true)

/-- HashSet::remove: removes the descriptor if present; returns the updated
set and whether it was present. -/
def DesiredSet.remove (subs : DesiredSet) (sub : Subscription) :
    DesiredSet × Bool :=
  if sub ∈ subs.elems then
    ({ elems := subs.elems.erase sub, nodup := subs.nodup.erase sub }, true)
  else (subs, false)

/-- One ready event of the connected select loop of `connection` in
`hypercore/ws.rs`: heartbeat tick, inbound raw frame, inbound stream end,
subscribe/unsubscribe command, or command channel closed. -/
inductive SessionEvent where
  | pingTick
  | inbound (raw : List Nat)
  | inboundClosed
  | command (isSub : Bool) (sub : Subscription)
  | commandClosed

/-- How a connected session ends: the event trace ran out, the inbound stream
ended (break to reconnect), or the command channel closed (return). -/
inductive SessionEnd where
  | ranOut
  | disconnected
  | closed
deriving DecidableEq

/-- Result of running a connected session: the desired set on exit, the
outbound frames sent on the connection, the messages delivered to the
consumer, and how the session ended. -/
structure SessionResult where
  subs : DesiredSet
  outs : List Outgoing
  ins : List Incoming
  fin : SessionEnd

/-- The command arm of the select loop in `connection`: a subscribe command
for a descriptor already in the desired set is a no-op, a new descriptor is
inserted and one subscribe frame sent; an unsubscribe command removes a
present descriptor and sends one unsubscribe frame, and is a no-op on an
absent one. -/
def handleCommand (subs : DesiredSet) (isSub : Bool)
    (sub : Subscription) : DesiredSet × List Outgoing :=
  if isSub then
    let p := subs.insert sub
    if p.2 then (p.1, [Outgoing.subscribe sub]) else (p.1, [])
  else
    let p := subs.remove sub
    if p.2 then (p.1, [Outgoing.unsubscribe sub]) else (p.1, [])

/-- The connected select loop of `connection` over a trace of ready events:
ping ticks send ping frames, inbound frames are decoded (failures dropped),
commands mutate the desired set via `handleCommand`, the end of the inbound
stream breaks to reconnect and a closed command channel ends the task.
Frame sends are modelled as succeeding. -/
def sessionRun (decode : List Nat → Option Incoming) (subs : DesiredSet) :
    List SessionEvent → SessionResult
  | [] => { subs := subs, outs := [], ins := [], fin := SessionEnd.ranOut }
  | SessionEvent.pingTick :: rest =>
      let r := sessionRun decode subs rest
      { r with outs := Outgoing.ping :: r.outs }
  | SessionEvent.inbound raw :: rest =>
      match decode raw with
      | some msg =>
          let r := sessionRun decode subs rest
          { r with ins := msg :: r.ins }
      | none => sessionRun decode subs rest
  | SessionEvent.inboundClosed :: _ =>
      { subs := subs, outs := [], ins := [], fin := SessionEnd.disconnected }
  | SessionEvent.command isSub sub :: rest =>
      let p := handleCommand subs isSub sub
      let r := sessionRun decode p.1 rest
      { r with outs := p.2 ++ r.outs }
  | SessionEvent.commandClosed :: _ =>
      { subs := subs, outs := [], ins := [], fin := SessionEnd.closed }

/-- The initial-subscription replay of `connection`: one subscribe frame per
member of the desired set, sent on the fresh connection before the select
loop starts. -/
def replayFrames (subs : DesiredSet) : List Outgoing :=
  subs.elems.map Outgoing.subscribe

/-- One iteration of the outer reconnect loop: a failed or timed-out connect
attempt, or a successful one followed by a trace of session events. -/
inductive ConnectAttempt where
  | fail
  | ok (events : List SessionEvent)

/-- Result of the outer reconnect loop: the outbound frames of each
successful connection in order, and all messages delivered to the consumer. -/
structure ConnRunResult where
  frames : List (List Outgoing)
  ins : List Incoming

/-- The outer loop of `connection` in `hypercore/ws.rs`: failed connects are
retried after the fixed delay with the desired set intact; each successful
connect first replays the entire desired set and then runs the select loop;
a disconnect loops back to reconnect with the current desired set, and a
closed command channel ends the task. -/
def connectionRun (decode : List Nat → Option Incoming)
    (subs : DesiredSet) : List ConnectAttempt → ConnRunResult
  | [] => { frames := [], ins := [] }
  | ConnectAttempt.fail :: rest => connectionRun decode subs rest
  | ConnectAttempt.ok events :: rest =>
      let r := sessionRun decode subs events
      let sent := replayFrames subs ++ r.outs
      match r.fin with
      | SessionEnd.disconnected =>
          let c := connectionRun decode r.subs rest
          { frames := sent :: c.frames, ins := r.ins ++ c.ins }
      | _ => { frames := [sent], ins := r.ins }

/-! Helper lemmas. -/

/-- A valid code point below the surrogate range round-trips through
`Char.ofNat`. -/
theorem char_toNat_ofNat_of_lt {n : Nat} (h : n < 55296) :
    (Char.ofNat n).toNat = n := by
  have hv : n.isValidChar := Or.inl h
  rw [Char.ofNat, dif_pos hv]
  simp [Char.ofNatAux, Char.toNat, UInt32.toNat, BitVec.ofNatLt]

/-- Char.toLower is idempotent: lowering an already lower-cased character
changes nothing. -/
theorem char_toLower_idem (c : Char) :
    Char.toLower (Char.toLower c) = Char.toLower c := by
  unfold Char.toLower
  by_cases h : c.toNat ≥ 65 ∧ c.toNat ≤ 90
  · rw [if_pos h]
    have h32 : c.toNat + 32 < 55296 := by omega
    have hn : (Char.ofNat (c.toNat + 32)).toNat = c.toNat + 32 :=
      char_toNat_ofNat_of_lt h32
    rw [if_neg]
    rw [hn]
    omega
  · rw [if_neg h, if_neg h]

/-- The address lowercasing used before multisig hashing is idempotent. -/
theorem toLowercase_idem (s : String) :
    toLowercase (toLowercase s) = toLowercase s := by
  simp only [toLowercase, List.map_map]
  congr 1
  apply List.map_congr_left
  intro c _
  exact char_toLower_idem c

/-- The signature-collection loop is the in-order map of the per-signer
signing over the signer list, appended to the accumulator. -/
theorem collectLoop_eq (f : Signer → Signature) (signers : List Signer)
    (acc : List Signature) :
    collectLoop f signers acc = acc ++ signers.map f := by
  induction signers generalizing acc with
  | nil => simp [collectLoop]
  | cons s rest ih => simp [collectLoop, ih]

/-- The subscribe frame constructor is injective, so replaying distinct
descriptors yields distinct frames. -/
theorem outgoing_subscribe_injective : Function.Injective Outgoing.subscribe :=
  fun _ _ h => Outgoing.subscribe.inj h

/-! Claim theorems. -/

/-- C1: every Mode-B signing with a target chain signs the Agent wrapper
(source "a" when the target chain is mainnet and "b" when it is testnet,
plus the canonical connection id) under the fixed mainnet EIP-712 domain
regardless of the actual target chain; the gateway-internal chainless
variant signs the same wrapper with source "a" under the same fixed
domain. -/
theorem mode_b_wrapper_source_and_domain
    (hashFn : List Nat → Nat) (canon : Action → List Nat) (signer : Signer)
    (action : Action) (nonce : Nat) (vault : Option String)
    (expiry : Option Nat) :
    (∀ chain : Chain,
      (sign_rmp hashFn canon signer action nonce vault expiry chain).signature
        = signer { domain := CORE_MAINNET_EIP712_DOMAIN,
                   message := Msg.agent (if chain.is_mainnet then "a" else "b")
                     (Action.hash hashFn canon action nonce vault expiry) })
    ∧ (sign_rmp hashFn canon signer action nonce vault expiry Chain.mainnet).signature
        = signer { domain := CORE_MAINNET_EIP712_DOMAIN,
                   message := Msg.agent "a"
                     (Action.hash hashFn canon action nonce vault expiry) }
    ∧ (sign_rmp hashFn canon signer action nonce vault expiry Chain.testnet).signature
        = signer { domain := CORE_MAINNET_EIP712_DOMAIN,
                   message := Msg.agent "b"
                     (Action.hash hashFn canon action nonce vault expiry) }
    ∧ (Client.sign_rmp hashFn canon signer action nonce vault expiry).signature
        = signer { domain := CORE_MAINNET_EIP712_DOMAIN,
                   message := Msg.agent "a"
                     (Action.hash hashFn canon action nonce vault expiry) } :=
  ⟨fun _ => rfl, rfl, rfl, rfl⟩

/-- C2: when the transport call or the venue response of a batched
submission fails after the request is built, the returned error carries the
complete list of client-supplied identifiers of every item in the batch; in
particular a 3-order batch failing in transport yields exactly its 3 client
order ids. -/
theorem batch_error_carries_all_ids
    (batch : BatchOrder) (cbatch : BatchCancel) (e : String) :
    Client.place batch (Except.error e)
      = BatchOutcome.err { ids := batch.orders.map (fun req => req.cloid), err := e }
    ∧ Client.place batch (Except.ok (ApiResponse.err e))
      = BatchOutcome.err { ids := batch.orders.map (fun req => req.cloid), err := e }
    ∧ Client.cancel cbatch (Except.error e)
      = BatchOutcome.err { ids := cbatch.cancels.map (fun req => req.oid), err := e }
    ∧ Client.cancel cbatch (Except.ok (ApiResponse.err e))
      = BatchOutcome.err { ids := cbatch.cancels.map (fun req => req.oid), err := e }
    ∧ ∀ o1 o2 o3 : OrderRequest,
        Client.place { orders := [o1, o2, o3] } (Except.error e)
          = BatchOutcome.err { ids := [o1.cloid, o2.cloid, o3.cloid], err := e } :=
  ⟨rfl, rfl, rfl, rfl, fun _ _ _ => rfl⟩

/-- C3: multisig signature collection signs once per signer in the given
order, producing the signature list [sig(s1), ..., sig(sn)] in call order,
and stores the multisig account address and the lead address lowercased in
the payload. -/
theorem multisig_collect_order_and_lowercase
    (hashFn : List Nat → Nat)
    (canonTriple : String → String → Action → List Nat)
    (tdm : String → String → Action → Option TypedData)
    (lead multi_sig_user : String) (signers : List Signer)
    (inner_action : Action) (nonce : Nat) (chain : Chain) :
    (multisig_collect_signatures hashFn canonTriple tdm lead multi_sig_user
        signers inner_action nonce chain).signatures
      = signers.map (fun s => multi_sig_single hashFn canonTriple tdm
          inner_action s nonce multi_sig_user lead chain)
    ∧ (multisig_collect_signatures hashFn canonTriple tdm lead multi_sig_user
        signers inner_action nonce chain).payload.multi_sig_user
      = toLowercase multi_sig_user
    ∧ (multisig_collect_signatures hashFn canonTriple tdm lead multi_sig_user
        signers inner_action nonce chain).payload.outer_signer
      = toLowercase lead := by
  refine ⟨?_, rfl, rfl⟩
  show collectLoop _ signers [] = _
  rw [collectLoop_eq]
  simp

/-- C4: multisig finalization hashes the complete MultiSigAction with nonce,
vault and expiry, signs the envelope (chain name string, hash hex string,
nonce) under the fixed mainnet multisig domain for every target chain, and
returns an ActionRequest whose action is the multisig variant wrapping the
given MultiSigAction. -/
theorem multisig_finalize_envelope
    (hashFn : List Nat → Nat) (canonMulti : MultiSigAction → List Nat)
    (signer : Signer) (ma : MultiSigAction) (nonce : Nat)
    (vault : Option String) (expiry : Option Nat) (chain : Chain) :
    (multisig_lead_msg hashFn canonMulti signer ma nonce vault expiry chain).action
      = Action.multiSig ma
    ∧ (multisig_lead_msg hashFn canonMulti signer ma nonce vault expiry chain).signature
      = signer { domain := MULTISIG_MAINNET_EIP712_DOMAIN,
                 message := Msg.sendMultiSig chain.render
                   (hashHex (rmp_hash hashFn (canonMulti ma) nonce vault expiry))
                   nonce }
    ∧ (multisig_lead_msg hashFn canonMulti signer ma nonce vault expiry chain).nonce
      = nonce
    ∧ (multisig_lead_msg hashFn canonMulti signer ma nonce vault expiry chain).vault_address
      = vault
    ∧ (multisig_lead_msg hashFn canonMulti signer ma nonce vault expiry chain).expires_after
      = expiry :=
  ⟨rfl, rfl, rfl, rfl, rfl⟩

/-- C5: for actions without a multisig-specific structured form, the
per-signer multisig hash is computed from the lowercased address pair, so
mixed-case and lowercase address inputs produce the identical digest and the
identical signature. -/
theorem multi_sig_hash_lowercase
    (hashFn : List Nat → Nat)
    (canonTriple : String → String → Action → List Nat) (action : Action)
    (nonce : Nat) (multi_sig_user lead : String) (signer : Signer)
    (chain : Chain) :
    multi_sig_connection_id hashFn canonTriple action nonce multi_sig_user lead
      = multi_sig_connection_id hashFn canonTriple action nonce
          (toLowercase multi_sig_user) (toLowercase lead)
    ∧ multi_sig_single hashFn canonTriple (fun _ _ _ => none) action signer
        nonce multi_sig_user lead chain
      = multi_sig_single hashFn canonTriple (fun _ _ _ => none) action signer
          nonce (toLowercase multi_sig_user) (toLowercase lead) chain := by
  have h1 : multi_sig_connection_id hashFn canonTriple action nonce multi_sig_user lead
      = multi_sig_connection_id hashFn canonTriple action nonce
          (toLowercase multi_sig_user) (toLowercase lead) := by
    unfold multi_sig_connection_id
    rw [toLowercase_idem, toLowercase_idem]
  refine ⟨h1, ?_⟩
  show sign_l1_action signer chain _ = sign_l1_action signer chain _
  rw [h1]

/-- C6: every successful connect first replays the desired set — exactly one
subscribe frame per member, no duplicates, no omissions, nothing else — and
only after the replay does the session handle normal traffic. -/
theorem connect_replays_desired_set
    (decode : List Nat → Option Incoming) (subs : DesiredSet)
    (events : List SessionEvent) (rest : List ConnectAttempt) :
    (∃ tail, (connectionRun decode subs (ConnectAttempt.ok events :: rest)).frames
        = (replayFrames subs ++ (sessionRun decode subs events).outs) :: tail)
    ∧ (replayFrames subs).Nodup
    ∧ (∀ s, Outgoing.subscribe s ∈ replayFrames subs ↔ s ∈ subs.elems)
    ∧ (replayFrames subs).all
        (fun f => match f with
          | Outgoing.subscribe s => decide (s ∈ subs.elems)
          | _ => false) = true := by
  refine ⟨?_, ?_, ?_, ?_⟩
  · unfold connectionRun
    cases h : (sessionRun decode subs events).fin <;> simp [h]
  · exact subs.nodup.map outgoing_subscribe_injective
  · intro s
    simp [replayFrames]
  · simp only [List.all_eq_true]
    intro f hf
    simp only [replayFrames, List.mem_map] at hf
    obtain ⟨s, hs, rfl⟩ := hf
    simpa using hs

/-- C7: a subscribe command for a descriptor already in the desired set is a
no-op emitting no frame (so two identical subscribes emit exactly one
subscribe frame), and an unsubscribe command for an absent descriptor is a
no-op emitting no frame. -/
theorem subscription_idempotence
    (decode : List Nat → Option Incoming) (subs : DesiredSet)
    (s : Subscription) :
    (s ∈ subs.elems → handleCommand subs true s = (subs, []))
    ∧ (s ∉ subs.elems →
        (sessionRun decode subs
          [SessionEvent.command true s, SessionEvent.command true s]).outs
        = [Outgoing.subscribe s])
    ∧ (s ∉ subs.elems → handleCommand subs false s = (subs, [])) := by
  refine ⟨?_, ?_, ?_⟩
  · intro h
    simp [handleCommand, DesiredSet.insert, h]
  · intro h
    simp [sessionRun, handleCommand, DesiredSet.insert, h]
  · intro h
    simp [handleCommand, DesiredSet.remove, h]

/-- Witness for C7 at concrete desired sets: a present and an absent
descriptor. -/
theorem subscription_idempotence_witness :
    handleCommand ⟨[Subscription.allMids], by simp⟩ true Subscription.allMids
      = (⟨[Subscription.allMids], by simp⟩, [])
    ∧ (sessionRun (fun _ => none) DesiredSet.empty
        [SessionEvent.command true Subscription.allMids,
         SessionEvent.command true Subscription.allMids]).outs
      = [Outgoing.subscribe Subscription.allMids]
    ∧ handleCommand DesiredSet.empty false Subscription.allMids
      = (DesiredSet.empty, []) := by
  refine ⟨?_, ?_, ?_⟩
  · exact (subscription_idempotence (fun _ => none)
      ⟨[Subscription.allMids], by simp⟩ Subscription.allMids).1 (by simp)
  · exact (subscription_idempotence (fun _ => none)
      DesiredSet.empty Subscription.allMids).2.1 (by simp [DesiredSet.empty])
  · exact (subscription_idempotence (fun _ => none)
      DesiredSet.empty Subscription.allMids).2.2 (by simp [DesiredSet.empty])

/-- C8: an inbound frame whose payload fails to decode is dropped — it
delivers no message, does not terminate the stream or the session, and
processing continues with the next frame. -/
theorem decode_failures_dropped
    (decode : List Nat → Option Incoming) (raw : List Nat)
    (rest : List (List Nat)) (subs : DesiredSet)
    (events : List SessionEvent) :
    (decode raw = none →
      Stream.pollNext decode (raw :: rest) = Stream.pollNext decode rest)
    ∧ (decode raw = none →
      sessionRun decode subs (SessionEvent.inbound raw :: events)
        = sessionRun decode subs events) := by
  constructor
  · intro h
    simp [Stream.pollNext, h]
  · intro h
    simp [sessionRun, h]

/-- Witness for C8 with the always-failing decoder on a concrete frame. -/
theorem decode_failures_dropped_witness :
    Stream.pollNext (fun _ => none) ([[]] : List (List Nat))
      = Stream.pollNext (fun _ => none) []
    ∧ sessionRun (fun _ => none) DesiredSet.empty [SessionEvent.inbound []]
      = sessionRun (fun _ => none) DesiredSet.empty [] := by
  have h := decode_failures_dropped (fun _ => none) [] [] DesiredSet.empty []
  exact ⟨h.1 rfl, h.2 rfl⟩

/-- C9: Mode-A signing of USD, spot and generic asset transfers ignores the
supplied vault address and expiry: the produced ActionRequest always has an
absent vault address and an absent expiry. -/
theorem mode_a_ignores_vault_and_expiry
    (tdU : UsdSend → TypedData) (tdS : SpotSend → TypedData)
    (tdA : SendAsset → TypedData) (signer : Signer) (u : UsdSend)
    (sp : SpotSend) (sa : SendAsset) (nonce : Nat) (vault : Option String)
    (expiry : Option Nat) (chain : Chain) :
    (UsdSend.signReq tdU signer u nonce vault expiry chain).vault_address = none
    ∧ (UsdSend.signReq tdU signer u nonce vault expiry chain).expires_after = none
    ∧ (SpotSend.signReq tdS signer sp nonce vault expiry chain).vault_address = none
    ∧ (SpotSend.signReq tdS signer sp nonce vault expiry chain).expires_after = none
    ∧ (SendAsset.signReq tdA signer sa nonce vault expiry chain).vault_address = none
    ∧ (SendAsset.signReq tdA signer sa nonce vault expiry chain).expires_after = none :=
  ⟨rfl, rfl, rfl, rfl, rfl, rfl⟩

/-- C10: the MultiSigAction produced by multisig signature collection always
carries the Arbitrum testnet chain id constant in its wrapping-signature
chain id field, for every chain argument including mainnet. -/
theorem multisig_chain_id_constant
    (hashFn : List Nat → Nat)
    (canonTriple : String → String → Action → List Nat)
    (tdm : String → String → Action → Option TypedData)
    (lead multi_sig_user : String) (signers : List Signer)
    (inner_action : Action) (nonce : Nat) (chain : Chain) :
    (multisig_collect_signatures hashFn canonTriple tdm lead multi_sig_user
        signers inner_action nonce chain).signature_chain_id
      = ARBITRUM_TESTNET_CHAIN_ID
    ∧ (multisig_collect_signatures hashFn canonTriple tdm lead multi_sig_user
        signers inner_action nonce Chain.mainnet).signature_chain_id
      = (multisig_collect_signatures hashFn canonTriple tdm lead multi_sig_user
          signers inner_action nonce Chain.testnet).signature_chain_id :=
  ⟨rfl, rfl⟩

end Hypersdk
